import Mathlib

/-!
Shallow embedding of the trading-bot backend (src/backend/app) in Lean 4.

Prices and percentages are modelled as rationals (`ℚ`), share quantities as
integers (`ℤ`), counters as naturals, timestamps as naturals (seconds).
Python `round(x, 2)` is modelled by `round2`; Python `or`-fallbacks on
possibly-missing numeric fields are modelled with `Option` and the zero test
that Python truthiness performs.  Database sessions are modelled as explicit
stores (lists of records); a "transaction" is one pure function from store to
store.  Logging and WebSocket emission are modelled as data in the result
where a claim depends on them, and elided otherwise.
-/

namespace TradingBot

/-- Trading signal, from `signal_generator.Signal`. -/
inductive Signal where
  | buy
  | sell
  | hold
deriving DecidableEq, Repr

/-- Python `round(x, 2)`: round to 2 decimal places. -/
def round2 (x : ℚ) : ℚ := (round (x * 100) : ℤ) / 100

/-- Risk configuration, from the `risk_management` dict each bot carries.
`none` models a missing key; defaults are applied at the use sites exactly
as the Python `dict.get(key, default)` calls do. -/
structure RiskConfig where
  max_position_size : Option ℚ := none
  max_daily_loss : Option ℚ := none
  max_concurrent_positions : Option ℤ := none
  stop_loss : Option ℚ := none
  take_profit : Option ℚ := none
deriving DecidableEq, Repr

/-- `RiskManager._check_capital_available` (risk_manager.py lines 89-102).
Reason strings keep the identifying head of the Python f-string; the
formatted numeric suffix is elided. -/
def checkCapitalAvailable (capital currentPrice : ℚ) : Bool × Option String :=
  if capital ≤ 0 then (false, some "no_capital")
  else if currentPrice ≤ 0 then (false, some "invalid_price")
  else if currentPrice > capital then (false, some "price_exceeds_capital")
  else (true, none)

/-- `RiskManager._check_position_size` (risk_manager.py lines 104-123). -/
def checkPositionSize (capital currentPrice : ℚ) (cfg : RiskConfig) : Bool × Option String :=
  let maxPct := cfg.max_position_size.getD 10
  let maxAllocation := capital * (maxPct / 100)
  if currentPrice > maxAllocation then (false, some "single_share_exceeds_position_limit")
  else (true, none)

/-- `RiskManager._check_daily_loss_limit` (risk_manager.py lines 125-147). -/
def checkDailyLossLimit (todayPnl capital : ℚ) (cfg : RiskConfig) : Bool × Option String :=
  let maxDailyLossPct := cfg.max_daily_loss.getD 0
  if maxDailyLossPct ≤ 0 ∨ capital ≤ 0 then (true, none)
  else
    let maxLoss := capital * (maxDailyLossPct / 100)
    if todayPnl < -maxLoss then (false, some "daily_loss_limit_exceeded")
    else (true, none)

/-- `RiskManager._check_max_positions` (risk_manager.py lines 149-164). -/
def checkMaxPositions (openCount : ℤ) (cfg : RiskConfig) : Bool × Option String :=
  match cfg.max_concurrent_positions with
  | none => (true, none)
  | some maxPositions =>
    if maxPositions ≤ 0 then (true, none)
    else if openCount ≥ maxPositions then (false, some "max_concurrent_positions_reached")
    else (true, none)

/-- First failing check wins, from the `for allowed, reason in checks` loop
in `RiskManager.validate`. -/
def firstFailure : List (Bool × Option String) → Bool × Option String
  | [] => (true, none)
  | c :: cs => if c.1 = false then c else firstFailure cs

/-- `RiskManager.validate` (risk_manager.py lines 44-83). -/
def validate (signal : Signal) (capital : ℚ) (cfg : RiskConfig)
    (currentPrice todayPnl : ℚ) (openCount : ℤ) : Bool × Option String :=
  if signal = Signal.sell then (true, none)
  else if signal = Signal.hold then (false, some "signal_is_hold")
  else firstFailure
    [ checkCapitalAvailable capital currentPrice,
      checkPositionSize capital currentPrice cfg,
      checkDailyLossLimit todayPnl capital cfg,
      checkMaxPositions openCount cfg ]

/-- `RiskManager.calculate_position_size` (risk_manager.py lines 170-199).
Python `int()` truncation coincides with `Int.floor` here because the
quotient is nonnegative on the path where it is taken. -/
def calculatePositionSize (capital currentPrice : ℚ) (cfg : RiskConfig) : ℤ :=
  if currentPrice ≤ 0 ∨ capital ≤ 0 then 0
  else
    let maxPct := cfg.max_position_size.getD 10
    let allocation := capital * (maxPct / 100)
    max ⌊allocation / currentPrice⌋ 0

/-- `RiskManager.calculate_stop_loss` (risk_manager.py lines 201-224). -/
def calculateStopLoss (entryPrice : ℚ) (cfg : RiskConfig) : Option ℚ :=
  let slPct := cfg.stop_loss.getD 0
  if slPct > 0 then some (round2 (entryPrice * (1 - slPct / 100))) else none

/-- `RiskManager.calculate_take_profit` (risk_manager.py lines 226-249). -/
def calculateTakeProfit (entryPrice : ℚ) (cfg : RiskConfig) : Option ℚ :=
  let tpPct := cfg.take_profit.getD 0
  if tpPct > 0 then some (round2 (entryPrice * (1 + tpPct / 100))) else none

/-- `models.Position` — the fields the claims touch. -/
structure Position where
  id : String
  botId : String
  symbol : String
  quantity : ℤ
  entryPrice : ℚ
  currentPrice : ℚ
  stopLossPrice : Option ℚ := none
  takeProfitPrice : Option ℚ := none
  unrealizedPnl : ℚ := 0
  realizedPnl : ℚ := 0
  isOpen : Bool
  entryIndicator : String := ""
  openedAt : ℕ := 0
  closedAt : Option ℕ := none
deriving DecidableEq, Repr

/-- `models.Trade` — the fields the claims touch.  `side` is "buy"/"sell". -/
structure Trade where
  id : String
  botId : String
  symbol : String
  side : String
  quantity : ℤ
  price : ℚ
  timestamp : ℕ
  orderId : String := ""
  clientOrderId : String := ""
  status : String
  profitLoss : Option ℚ := none
  reason : String := ""
deriving DecidableEq, Repr

/-- A broker order-status dict as returned by `AlpacaClient.get_order` /
`_wait_for_fill`.  `filled_avg_price = some 0` and `none` are both falsy in
the Python `if not filled_price` / `or` tests that consume it. -/
structure OrderStatus where
  status : String
  filled_avg_price : Option ℚ := none
  filled_qty : Option ℤ := none
deriving DecidableEq, Repr

/-- The persistence store: the Trade and Position tables. -/
structure Store where
  trades : List Trade
  positions : List Position
deriving DecidableEq, Repr

/-- `SignalGenerator._majority_vote` (signal_generator.py lines 275-296). -/
def majorityVote (buy sell _hold total : ℕ) : Signal :=
  if total < 2 then Signal.hold
  else
    let threshold : ℚ := (total : ℚ) / 2
    if (buy : ℚ) > threshold ∧ buy ≥ 2 then Signal.buy
    else if (sell : ℚ) > threshold ∧ sell ≥ 2 then Signal.sell
    else Signal.hold

/-- One snapshot entry per configured indicator: `none` models an indicator
that was skipped (insufficient data, unknown name, or evaluator error),
`some s` an indicator that evaluated to signal `s`. -/
abbrev IndicatorResults := List (String × Option Signal)

/-- Vote count for one signal inside `SignalGenerator.evaluate`. -/
def countVotes (results : IndicatorResults) (s : Signal) : ℕ :=
  (results.filter (fun r => r.2 = some s)).length

/-- `total_evaluated` inside `SignalGenerator.evaluate`. -/
def totalEvaluated (results : IndicatorResults) : ℕ :=
  (results.filter (fun r => r.2.isSome)).length

/-- `SignalGenerator.evaluate` (signal_generator.py lines 52-128),
reduced to the final signal it returns. -/
def evaluateSignal (results : IndicatorResults) : Signal :=
  if results = [] then Signal.hold
  else majorityVote (countVotes results Signal.buy) (countVotes results Signal.sell)
    (countVotes results Signal.hold) (totalEvaluated results)

/-- `SignalGenerator.evaluate_per_indicator` (signal_generator.py lines
130-171): skipped indicators are omitted from the returned mapping. -/
def evaluatePerIndicator (results : IndicatorResults) : List (String × Signal) :=
  results.filterMap (fun r => r.2.map (fun s => (r.1, s)))

/-- `per_indicator_signals.get(name, Signal.HOLD)` on the association list
returned by `evaluatePerIndicator`. -/
def lookupSignal (signals : List (String × Signal)) (name : String) : Signal :=
  match signals.find? (fun p => p.1 = name) with
  | some p => p.2
  | none => Signal.hold

/-- The `for ind_name, ind_signal in per_indicator_signals.items()` loop of
`BotRunner._process_symbol`: first indicator whose signal is BUY. -/
def firstBuyIndicator (signals : List (String × Signal)) : Option String :=
  (signals.find? (fun p => p.2 = Signal.buy)).map Prod.fst

/-- `BotRunner._get_open_position` (trading_engine.py lines 661-671):
the first open Position row for (bot, symbol). -/
def getOpenPosition (st : Store) (botId symbol : String) : Option Position :=
  st.positions.find? (fun p => p.botId = botId ∧ p.symbol = symbol ∧ p.isOpen = true)

/-- What one per-symbol pass of `BotRunner._process_symbol` decides to do. -/
inductive SymbolAction where
  | hold
  | sellOrder (reason : String)
  | buyOrder (entryIndicator : String)
deriving DecidableEq, Repr

/-- The environment one `_process_symbol` pass observes: the per-indicator
snapshot for the symbol, the latest quoted price, and the Risk Manager's
verdict on a BUY at that price. -/
structure SymbolEnv where
  results : IndicatorResults
  latestPrice : ℚ
  riskAllowsBuy : Bool
deriving DecidableEq, Repr

/-- Decision core of `BotRunner._process_symbol` (trading_engine.py lines
204-317).  With an open position, only the position's `entry_indicator`
signal is examined (falling back to the majority vote `evaluate` when the
stored indicator is empty, `or ""` in the source covering NULL); with no
open position, the first indicator voting BUY proposes an entry, which the
Risk Manager may block. -/
def processSymbolAction (openPos : Option Position) (env : SymbolEnv) : SymbolAction :=
  let perIndicatorSignals := evaluatePerIndicator env.results
  match openPos with
  | some pos =>
    let entryInd := pos.entryIndicator
    if entryInd = "" then
      if evaluateSignal env.results = Signal.sell ∧ env.latestPrice > 0 then
        SymbolAction.sellOrder "Majority vote sell signal"
      else SymbolAction.hold
    else
      if lookupSignal perIndicatorSignals entryInd = Signal.sell ∧ env.latestPrice > 0 then
        SymbolAction.sellOrder (entryInd ++ " sell signal")
      else SymbolAction.hold
  | none =>
    match firstBuyIndicator perIndicatorSignals with
    | none => SymbolAction.hold
    | some buyIndicator =>
      if env.latestPrice ≤ 0 then SymbolAction.hold
      else if env.riskAllowsBuy = false then SymbolAction.hold
      else SymbolAction.buyOrder buyIndicator

/-- The pending Trade row inserted by `BotRunner._execute_buy` right after
order submission (trading_engine.py lines 365-379). -/
def pendingBuyTrade (botId symbol : String) (qty : ℤ) (currentPrice : ℚ)
    (entryIndicator : String) (tradeId orderId coid : String) (now : ℕ) : Trade :=
  { id := tradeId, botId := botId, symbol := symbol, side := "buy",
    quantity := qty, price := currentPrice, timestamp := now,
    orderId := orderId, clientOrderId := coid, status := "new",
    reason := if entryIndicator = "" then "Buy signal" else entryIndicator ++ " buy signal" }

/-- The pending Position row inserted by `BotRunner._execute_buy` right
after order submission (trading_engine.py lines 381-395). -/
def pendingBuyPosition (botId symbol : String) (qty : ℤ) (currentPrice : ℚ)
    (entryIndicator : String) (cfg : RiskConfig) (positionId : String) (now : ℕ) : Position :=
  { id := positionId, botId := botId, symbol := symbol, quantity := qty,
    entryPrice := currentPrice, currentPrice := currentPrice,
    stopLossPrice := calculateStopLoss currentPrice cfg,
    takeProfitPrice := calculateTakeProfit currentPrice cfg,
    unrealizedPnl := 0, realizedPnl := 0, isOpen := true,
    entryIndicator := entryIndicator, openedAt := now }

/-- The single pending-record transaction of `BotRunner._execute_buy`
(trading_engine.py lines 360-396): immediately after the order submission
and before `_wait_for_fill`, one session commit inserts a Trade with
status "new" and an open Position priced at the last observed price. -/
def executeBuyPending (st : Store) (botId symbol : String) (qty : ℤ)
    (currentPrice : ℚ) (entryIndicator : String) (cfg : RiskConfig)
    (tradeId positionId orderId coid : String) (now : ℕ) : Store :=
  { trades := st.trades ++
      [pendingBuyTrade botId symbol qty currentPrice entryIndicator tradeId orderId coid now],
    positions := st.positions ++
      [pendingBuyPosition botId symbol qty currentPrice entryIndicator cfg positionId now] }

/-- Broker statuses `_execute_buy` / `_execute_sell` treat as a terminal
non-fill: `("canceled", "cancelled", "expired", "rejected")`. -/
def isTerminalNonFill (status : String) : Bool :=
  status = "canceled" ∨ status = "cancelled" ∨ status = "expired" ∨ status = "rejected"

/-- The fill price `_execute_sell` uses: `filled_avg_price`, falling back
to the last observed price when it is missing or zero (Python
`if not filled_price`). -/
def sellFillPrice (orderStatus : OrderStatus) (currentPrice : ℚ) : ℚ :=
  match orderStatus.filled_avg_price with
  | some p => if p = 0 then currentPrice else p
  | none => currentPrice

/-- Post-submission phase of `BotRunner._execute_sell` (trading_engine.py
lines 556-602): after `_wait_for_fill` returns, a terminal non-fill leaves
the Position untouched and records no sell Trade; any other returned status
is treated as a fill at `sellFillPrice`. -/
def executeSellOutcome (pos : Position) (currentPrice : ℚ) (orderStatus : OrderStatus)
    (botId symbol : String) (tradeId orderId coid reason : String) (now : ℕ) :
    Position × Option Trade :=
  if isTerminalNonFill orderStatus.status then (pos, none)
  else
    let filledPrice := sellFillPrice orderStatus currentPrice
    let profitLoss := round2 ((filledPrice - pos.entryPrice) * pos.quantity)
    let closedPos : Position :=
      { pos with
        isOpen := false
        closedAt := some now
        currentPrice := filledPrice
        realizedPnl := profitLoss
        unrealizedPnl := 0 }
    let trade : Trade :=
      { id := tradeId, botId := botId, symbol := symbol, side := "sell",
        quantity := pos.quantity, price := filledPrice, timestamp := now,
        orderId := orderId, clientOrderId := coid,
        status := if orderStatus.status = "filled" then "filled" else orderStatus.status,
        profitLoss := some profitLoss, reason := reason }
    (closedPos, some trade)

/-- What `BotRunner._check_stop_loss_take_profit` does with one open
position once a positive latest price was fetched. -/
inductive SlTpAction where
  | sell (reason : String)
  | updatePrice (newCurrentPrice newUnrealizedPnl : ℚ)
deriving DecidableEq, Repr

/-- Python truthiness of an optional price level: `None` and `0.0` are
falsy in `if pos.stop_loss_price and ...`. -/
def levelSet : Option ℚ → Bool
  | none => false
  | some v => v ≠ 0

/-- Per-position body of `BotRunner._check_stop_loss_take_profit`
(trading_engine.py lines 696-743).  The stop-loss and take-profit tests are
two sequential `if` statements writing the same `sell_reason` variable, so
when both fire the take-profit reason is the one that survives.  Reason
strings keep the identifying head; the formatted price suffix is elided. -/
def slTpAction (pos : Position) (currentPrice : ℚ) : SlTpAction :=
  let slHit := levelSet pos.stopLossPrice ∧ currentPrice ≤ pos.stopLossPrice.getD 0
  let tpHit := levelSet pos.takeProfitPrice ∧ currentPrice ≥ pos.takeProfitPrice.getD 0
  if tpHit then SlTpAction.sell "Take-profit triggered"
  else if slHit then SlTpAction.sell "Stop-loss triggered"
  else SlTpAction.updatePrice currentPrice (round2 ((currentPrice - pos.entryPrice) * pos.quantity))

/-- Broker statuses the Reconciler treats as still transient:
`("new", "partially_filled", "accepted", "pending_new")`. -/
def isTransientStatus (status : String) : Bool :=
  status = "new" ∨ status = "partially_filled" ∨ status = "accepted" ∨ status = "pending_new"

/-- `STALE_ORDER_THRESHOLD = timedelta(minutes=5)`, in seconds. -/
def staleOrderThreshold : ℕ := 300

/-- `position.is_open = False; position.closed_at = utcnow()`. -/
def closePosition (now : ℕ) (p : Position) : Position :=
  { p with isOpen := false, closedAt := some now }

/-- Close the first open Position matching (bot, symbol) in the list —
the `scalars().first()` target of the Reconciler's position queries. -/
def closeMatchingOpenPosition (now : ℕ) (botId symbol : String) :
    List Position → List Position
  | [] => []
  | p :: ps =>
    if p.botId = botId ∧ p.symbol = symbol ∧ p.isOpen = true then closePosition now p :: ps
    else p :: closeMatchingOpenPosition now botId symbol ps

/-- Overwrite entry price and quantity on the first open Position matching
(bot, symbol) — `PositionReconciler._handle_filled_order`. -/
def refillMatchingOpenPosition (fillPrice : ℚ) (fillQty : ℤ) (botId symbol : String) :
    List Position → List Position
  | [] => []
  | p :: ps =>
    if p.botId = botId ∧ p.symbol = symbol ∧ p.isOpen = true then
      { p with entryPrice := fillPrice, quantity := fillQty } :: ps
    else p :: refillMatchingOpenPosition fillPrice fillQty botId symbol ps

/-- Per-trade body of `PositionReconciler.resolve_pending_trades`
(reconciler.py lines 114-141) together with `_handle_filled_order`,
`_handle_terminal_order` and `_cancel_stale_order`.  Returns the updated
trade, the updated position table, and whether `cancel_order` was issued to
the broker.  The Python `or`-fallbacks on missing/zero fill data are kept. -/
def resolvePendingTradeStep (trade : Trade) (positions : List Position)
    (order : OrderStatus) (now : ℕ) : Trade × List Position × Bool :=
  let status := order.status
  if status = "filled" then
    let fillPrice :=
      match order.filled_avg_price with
      | some p => if p = 0 then trade.price else p
      | none => trade.price
    let fillQty :=
      match order.filled_qty with
      | some q => if q = 0 then trade.quantity else q
      | none => trade.quantity
    ({ trade with status := "filled", price := fillPrice, quantity := fillQty },
     refillMatchingOpenPosition fillPrice fillQty trade.botId trade.symbol positions,
     false)
  else if isTerminalNonFill status then
    ({ trade with status := status },
     closeMatchingOpenPosition now trade.botId trade.symbol positions,
     false)
  else if isTransientStatus status then
    if now - trade.timestamp > staleOrderThreshold then
      ({ trade with status := "canceled" },
       closeMatchingOpenPosition now trade.botId trade.symbol positions,
       true)
    else (trade, positions, false)
  else (trade, positions, false)

/-- A drift record appended to `discrepancies` in
`PositionReconciler.reconcile_positions`. -/
structure Discrepancy where
  kind : String
  symbol : String
  alpacaQty : ℤ
  dbQty : ℤ
  diff : ℤ
deriving DecidableEq, Repr

/-- `PositionReconciler._auto_close_stale_positions` (reconciler.py lines
345-376): walk the open positions for the symbol in `opened_at` ascending
order, closing each until `excess` shares have been absorbed. -/
def autoCloseStalePositions (now : ℕ) (excess : ℤ) :
    List Position → List Position
  | [] => []
  | p :: ps =>
    if excess ≤ 0 then p :: ps
    else closePosition now p :: autoCloseStalePositions now (excess - p.quantity) ps

/-- Sum of quantities over a position list. -/
def sumQty (ps : List Position) : ℤ := (ps.map Position.quantity).sum

/-- Sum of quantities of the positions still open in a list. -/
def sumOpenQty (ps : List Position) : ℤ :=
  ((ps.filter (fun p => p.isOpen = true)).map Position.quantity).sum

/-- Per-symbol body of `PositionReconciler.reconcile_positions`
(reconciler.py lines 301-332), acting on the user's open positions for one
symbol sorted by `opened_at` ascending.  `brokerQty` is Alpaca's quantity
for the symbol (0 when absent).  Returns the updated rows and the
discrepancy recorded, if any; the broker-excess branch only records the
drift and leaves every row untouched. -/
def reconcileSymbol (now : ℕ) (symbol : String) (localOpen : List Position)
    (brokerQty : ℤ) : List Position × Option Discrepancy :=
  let dbQty := sumQty localOpen
  if brokerQty > dbQty then
    (localOpen,
     some { kind := "excess_in_alpaca", symbol := symbol, alpacaQty := brokerQty,
            dbQty := dbQty, diff := brokerQty - dbQty })
  else if dbQty > brokerQty then
    (autoCloseStalePositions now (dbQty - brokerQty) localOpen,
     some { kind := "excess_in_db", symbol := symbol, alpacaQty := brokerQty,
            dbQty := dbQty, diff := dbQty - brokerQty })
  else (localOpen, none)

/-- Per-position body of `PositionReconciler._update_live_prices`
(reconciler.py lines 401-407): refresh `current_price` and recompute
`unrealized_pnl` from the broker snapshot when it quotes the symbol. -/
def updateLivePrice (priceMap : String → Option ℚ) (p : Position) : Position :=
  if p.isOpen = true then
    match priceMap p.symbol with
    | some livePrice =>
      { p with currentPrice := livePrice,
               unrealizedPnl := round2 ((livePrice - p.entryPrice) * p.quantity) }
    | none => p
  else p

/-- `PositionReconciler._update_live_prices` (reconciler.py lines 387-407),
restricted to one position list: quantity and open state are untouched. -/
def updateLivePrices (priceMap : String → Option ℚ) (ps : List Position) : List Position :=
  ps.map (updateLivePrice priceMap)

/-- `MAX_ERROR_COUNT = 5` (trading_engine.py line 54). -/
def maxErrorCount : ℕ := 5

/-- The BotRunner loop state the consecutive-error claim talks about:
the in-memory counter and running flag, and the persisted bot row fields
`_auto_stop_on_error` mutates, plus whether `bot_status_changed` was
emitted by that auto-stop. -/
structure RunnerState where
  consecutiveErrors : ℕ
  isRunning : Bool
  exited : Bool
  botStatus : String
  botIsActive : Bool
  emittedStatusChanged : Bool
deriving DecidableEq, Repr

/-- State right after `BotRunner.start` on a bot persisted as running. -/
def initialRunnerState : RunnerState :=
  { consecutiveErrors := 0, isRunning := true, exited := false,
    botStatus := "running", botIsActive := true, emittedStatusChanged := false }

/-- Outcome of one pass of the `while self.is_running` body in
`BotRunner._trading_loop`: the cycle either completes (including the
skip paths) or an exception escapes it. -/
inductive CycleOutcome where
  | success
  | failure
deriving DecidableEq, Repr

/-- One iteration of `BotRunner._trading_loop` (trading_engine.py lines
151-202) at cycle granularity, with `_auto_stop_on_error` (lines 824-851)
folded into the cap branch: a successful cycle resets the counter; an
escaping exception increments it, and reaching `MAX_ERROR_COUNT` persists
status "error", clears `is_active`, emits `bot_status_changed`, and breaks
out of the loop. -/
def cycleStep (s : RunnerState) (o : CycleOutcome) : RunnerState :=
  if s.exited = true ∨ s.isRunning = false then s
  else
    match o with
    | CycleOutcome.success => { s with consecutiveErrors := 0 }
    | CycleOutcome.failure =>
      let n := s.consecutiveErrors + 1
      if n ≥ maxErrorCount then
        { s with
          consecutiveErrors := n
          isRunning := false
          exited := true
          botStatus := "error"
          botIsActive := false
          emittedStatusChanged := true }
      else { s with consecutiveErrors := n }

/-- Run the trading loop over a sequence of cycle outcomes. -/
def runCycles (s : RunnerState) : List CycleOutcome → RunnerState
  | [] => s
  | o :: os => runCycles (cycleStep s o) os

/-- The activities `TradingEngine.start` performs, in source order. -/
inductive StartStep where
  | setRunningFlag
  | refreshMarketStatus
  | spawnMarketMonitor
  | loadRunningBots
  | startupReconciliation
  | spawnReconcilerLoop
deriving DecidableEq, Repr

/-- `TradingEngine.start` (trading_engine.py lines 880-917) as the ordered
list of steps it performs; a second call while the running flag is set does
nothing. -/
def engineStartSteps (alreadyRunning : Bool) : List StartStep :=
  if alreadyRunning then []
  else
    [ StartStep.setRunningFlag,
      StartStep.refreshMarketStatus,
      StartStep.spawnMarketMonitor,
      StartStep.loadRunningBots,
      StartStep.startupReconciliation,
      StartStep.spawnReconcilerLoop ]

/-- `TradingEngine._load_running_bots` + `register_bot` (trading_engine.py
lines 951-998, 1097-1115): each bot's registration is individually wrapped
in try/except, so the resulting registry holds exactly the bots whose
registration succeeds, independent of failures among the others.  Each
input pair is a bot id with whether its registration succeeds. -/
def loadRunningBots (bots : List (String × Bool)) : List String :=
  (bots.filter (fun b => b.2 = true)).map Prod.fst

/-! ## Helper lemmas -/

lemma firstFailure_cons_false (c : Bool × Option String) (cs : List (Bool × Option String))
    (h : c.1 = false) : firstFailure (c :: cs) = c := by
  simp [firstFailure, h]

lemma firstFailure_cons_true (c : Bool × Option String) (cs : List (Bool × Option String))
    (h : c.1 = true) : firstFailure (c :: cs) = firstFailure cs := by
  simp [firstFailure, h]

lemma validate_buy_eq (capital : ℚ) (cfg : RiskConfig) (price pnl : ℚ) (cnt : ℤ) :
    validate Signal.buy capital cfg price pnl cnt = firstFailure
      [ checkCapitalAvailable capital price,
        checkPositionSize capital price cfg,
        checkDailyLossLimit pnl capital cfg,
        checkMaxPositions cnt cfg ] := by
  simp [validate]

lemma cast_div_lt_iff (b t : ℕ) : (t : ℚ) / 2 < (b : ℚ) ↔ t < 2 * b := by
  rw [div_lt_iff₀ (by norm_num : (0:ℚ) < 2)]
  constructor
  · intro h
    have h2 : (t : ℚ) < ((b * 2 : ℕ) : ℚ) := by push_cast; linarith
    have := Nat.cast_lt.mp h2
    omega
  · intro h
    have h2 : t < b * 2 := by omega
    have : (t : ℚ) < ((b * 2 : ℕ) : ℚ) := Nat.cast_lt.mpr h2
    push_cast at this
    linarith

lemma majorityVote_hold_of_small (b s h t : ℕ) (ht : t < 2) :
    majorityVote b s h t = Signal.hold := by
  simp [majorityVote, ht]

lemma majorityVote_buy_votes (b s h t : ℕ) (hb : majorityVote b s h t = Signal.buy) :
    t < 2 * b ∧ 2 ≤ b := by
  simp only [majorityVote] at hb
  split_ifs at hb with h1 h2 h3
  exact ⟨(cast_div_lt_iff b t).mp h2.1, h2.2⟩

lemma majorityVote_sell_votes (b s h t : ℕ) (hs : majorityVote b s h t = Signal.sell) :
    t < 2 * s ∧ 2 ≤ s := by
  simp only [majorityVote] at hs
  split_ifs at hs with h1 h2 h3
  exact ⟨(cast_div_lt_iff s t).mp h3.1, h3.2⟩

lemma evaluateSignal_hold_of_few (results : IndicatorResults)
    (h : totalEvaluated results ≤ 1) : evaluateSignal results = Signal.hold := by
  unfold evaluateSignal
  split_ifs with he
  · rfl
  · exact majorityVote_hold_of_small _ _ _ _ (by omega)

lemma totalEvaluated_le_length (results : IndicatorResults) :
    totalEvaluated results ≤ results.length :=
  List.length_filter_le _ _

lemma evaluateSignal_hold_of_single (results : IndicatorResults)
    (h : results.length ≤ 1) : evaluateSignal results = Signal.hold :=
  evaluateSignal_hold_of_few results (le_trans (totalEvaluated_le_length results) h)

/-! ## Claim theorems -/

/-- C2: `RiskManager.validate` checks its rules in a fixed order with the
first failure winning — SELL is always allowed with no reason, HOLD is
always refused with "signal_is_hold", and a BUY runs capital-available,
position-size, daily-loss, then max-concurrent-positions; at the exact
thresholds a price equal to the maximum allocation passes the position-size
check, a today-PnL exactly at the loss limit passes the daily-loss check,
and an open count equal to the configured limit is refused. -/
theorem c2_risk_validate_order :
    (∀ (capital : ℚ) (cfg : RiskConfig) (price pnl : ℚ) (cnt : ℤ),
      validate Signal.sell capital cfg price pnl cnt = (true, none))
  ∧ (∀ (capital : ℚ) (cfg : RiskConfig) (price pnl : ℚ) (cnt : ℤ),
      validate Signal.hold capital cfg price pnl cnt = (false, some "signal_is_hold"))
  ∧ (∀ (capital : ℚ) (cfg : RiskConfig) (price pnl : ℚ) (cnt : ℤ),
      (checkCapitalAvailable capital price).1 = false →
      validate Signal.buy capital cfg price pnl cnt = checkCapitalAvailable capital price)
  ∧ (∀ (capital : ℚ) (cfg : RiskConfig) (price pnl : ℚ) (cnt : ℤ),
      (checkCapitalAvailable capital price).1 = true →
      (checkPositionSize capital price cfg).1 = false →
      validate Signal.buy capital cfg price pnl cnt = checkPositionSize capital price cfg)
  ∧ (∀ (capital : ℚ) (cfg : RiskConfig) (price pnl : ℚ) (cnt : ℤ),
      (checkCapitalAvailable capital price).1 = true →
      (checkPositionSize capital price cfg).1 = true →
      (checkDailyLossLimit pnl capital cfg).1 = false →
      validate Signal.buy capital cfg price pnl cnt = checkDailyLossLimit pnl capital cfg)
  ∧ (∀ (capital : ℚ) (cfg : RiskConfig) (price pnl : ℚ) (cnt : ℤ),
      (checkCapitalAvailable capital price).1 = true →
      (checkPositionSize capital price cfg).1 = true →
      (checkDailyLossLimit pnl capital cfg).1 = true →
      (checkMaxPositions cnt cfg).1 = false →
      validate Signal.buy capital cfg price pnl cnt = checkMaxPositions cnt cfg)
  ∧ (∀ (capital : ℚ) (cfg : RiskConfig) (price pnl : ℚ) (cnt : ℤ),
      (checkCapitalAvailable capital price).1 = true →
      (checkPositionSize capital price cfg).1 = true →
      (checkDailyLossLimit pnl capital cfg).1 = true →
      (checkMaxPositions cnt cfg).1 = true →
      validate Signal.buy capital cfg price pnl cnt = (true, none))
  ∧ (∀ (capital : ℚ) (cfg : RiskConfig) (price : ℚ),
      price = capital * (cfg.max_position_size.getD 10 / 100) →
      (checkPositionSize capital price cfg).1 = true)
  ∧ (∀ (capital : ℚ) (cfg : RiskConfig) (pnl : ℚ),
      pnl = -(capital * (cfg.max_daily_loss.getD 0 / 100)) →
      (checkDailyLossLimit pnl capital cfg).1 = true)
  ∧ (∀ (cfg : RiskConfig) (m : ℤ), cfg.max_concurrent_positions = some m → 0 < m →
      checkMaxPositions m cfg = (false, some "max_concurrent_positions_reached")) := by
  refine ⟨?_, ?_, ?_, ?_, ?_, ?_, ?_, ?_, ?_, ?_⟩
  · intro capital cfg price pnl cnt; simp [validate]
  · intro capital cfg price pnl cnt; simp [validate]
  · intro capital cfg price pnl cnt h1
    rw [validate_buy_eq, firstFailure_cons_false _ _ h1]
  · intro capital cfg price pnl cnt h1 h2
    rw [validate_buy_eq, firstFailure_cons_true _ _ h1, firstFailure_cons_false _ _ h2]
  · intro capital cfg price pnl cnt h1 h2 h3
    rw [validate_buy_eq, firstFailure_cons_true _ _ h1, firstFailure_cons_true _ _ h2,
      firstFailure_cons_false _ _ h3]
  · intro capital cfg price pnl cnt h1 h2 h3 h4
    rw [validate_buy_eq, firstFailure_cons_true _ _ h1, firstFailure_cons_true _ _ h2,
      firstFailure_cons_true _ _ h3, firstFailure_cons_false _ _ h4]
  · intro capital cfg price pnl cnt h1 h2 h3 h4
    rw [validate_buy_eq, firstFailure_cons_true _ _ h1, firstFailure_cons_true _ _ h2,
      firstFailure_cons_true _ _ h3, firstFailure_cons_true _ _ h4]
    rfl
  · intro capital cfg price hp
    subst hp
    simp [checkPositionSize]
  · intro capital cfg pnl hp
    subst hp
    simp only [checkDailyLossLimit]
    split_ifs with h1 h2
    · rfl
    · exact absurd h2 (lt_irrefl _)
    · rfl
  · intro cfg m hm h0
    simp only [checkMaxPositions, hm]
    rw [if_neg (by omega), if_pos (le_refl m)]

/-- Witness for C2: spec scenario 6 — capital 1000, max position size 5 %,
price 60: the BUY is refused by the position-size rule. -/
theorem c2_risk_validate_order_witness :
    validate Signal.buy 1000 { max_position_size := some 5 } 60 0 0 =
      (false, some "single_share_exceeds_position_limit") := by
  have h := c2_risk_validate_order.2.2.2.1 1000 { max_position_size := some 5 } 60 0 0
    (by norm_num [checkCapitalAvailable]) (by norm_num [checkPositionSize])
  rw [h]
  norm_num [checkPositionSize]

/-- C10: the majority-vote fallback returns BUY or SELL only when strictly
more than half of the evaluated indicators and at least 2 of them give that
signal, and returns HOLD whenever fewer than 2 indicators were evaluated;
so with a single configured indicator the vote is always HOLD, and a
position without an `entry_indicator` is never sold via the fallback under
such a configuration. -/
theorem c10_majority_vote_threshold :
    (∀ b s h t : ℕ, t < 2 → majorityVote b s h t = Signal.hold)
  ∧ (∀ b s h t : ℕ, majorityVote b s h t = Signal.buy → t < 2 * b ∧ 2 ≤ b)
  ∧ (∀ b s h t : ℕ, majorityVote b s h t = Signal.sell → t < 2 * s ∧ 2 ≤ s)
  ∧ (∀ results : IndicatorResults, totalEvaluated results ≤ 1 →
      evaluateSignal results = Signal.hold)
  ∧ (∀ results : IndicatorResults, results.length ≤ 1 →
      evaluateSignal results = Signal.hold)
  ∧ (∀ (pos : Position) (env : SymbolEnv), pos.entryIndicator = "" →
      env.results.length ≤ 1 →
      processSymbolAction (some pos) env = SymbolAction.hold) := by
  refine ⟨majorityVote_hold_of_small, majorityVote_buy_votes, majorityVote_sell_votes,
    evaluateSignal_hold_of_few, evaluateSignal_hold_of_single, ?_⟩
  intro pos env hind hlen
  have hs := evaluateSignal_hold_of_single env.results hlen
  simp [processSymbolAction, hind, hs]

/-- Exit path of `_process_symbol` with a non-empty entry indicator,
written as a single conditional. -/
lemma processSymbolAction_some_entry (pos : Position) (env : SymbolEnv)
    (hne : pos.entryIndicator ≠ "") :
    processSymbolAction (some pos) env =
      if lookupSignal (evaluatePerIndicator env.results) pos.entryIndicator = Signal.sell
          ∧ env.latestPrice > 0 then
        SymbolAction.sellOrder (pos.entryIndicator ++ " sell signal")
      else SymbolAction.hold := by
  simp [processSymbolAction, hne]

/-- C3: with an open position carrying a non-empty `entry_indicator` e and a
positive fetched price, a SELL with reason "e sell signal" is executed iff
the per-indicator signal of e is SELL, regardless of every other
indicator's signal; with an empty `entry_indicator` the exit decision falls
back to the majority vote over all configured indicators. -/
theorem c3_exit_discipline :
    (∀ (pos : Position) (env : SymbolEnv), pos.entryIndicator ≠ "" → 0 < env.latestPrice →
      (processSymbolAction (some pos) env
          = SymbolAction.sellOrder (pos.entryIndicator ++ " sell signal")
        ↔ lookupSignal (evaluatePerIndicator env.results) pos.entryIndicator = Signal.sell))
  ∧ (∀ (pos : Position) (env : SymbolEnv), pos.entryIndicator ≠ "" →
      lookupSignal (evaluatePerIndicator env.results) pos.entryIndicator ≠ Signal.sell →
      processSymbolAction (some pos) env = SymbolAction.hold)
  ∧ (∀ (pos : Position) (env : SymbolEnv), pos.entryIndicator = "" →
      (processSymbolAction (some pos) env = SymbolAction.sellOrder "Majority vote sell signal"
        ↔ (evaluateSignal env.results = Signal.sell ∧ 0 < env.latestPrice))) := by
  refine ⟨?_, ?_, ?_⟩
  · intro pos env hne hp
    rw [processSymbolAction_some_entry pos env hne]
    by_cases hsig :
        lookupSignal (evaluatePerIndicator env.results) pos.entryIndicator = Signal.sell
    · simp [hsig, hp]
    · simp [hsig]
  · intro pos env hne hsig
    rw [processSymbolAction_some_entry pos env hne]
    simp [hsig]
  · intro pos env hemp
    by_cases hsig : evaluateSignal env.results = Signal.sell ∧ 0 < env.latestPrice
    · simp [processSymbolAction, hemp, hsig.1, hsig.2]
    · rw [not_and_or] at hsig
      rcases hsig with hs | hp
      · simp [processSymbolAction, hemp, hs]
      · have hple : ¬ (env.latestPrice > 0) := hp
        simp [processSymbolAction, hemp, hple]

/-- Witness for C3: spec scenario 2 — position entered via RSI; with
RSI=HOLD and SMA=SELL nothing is sold; with RSI=SELL a SELL with reason
"RSI sell signal" is executed. -/
theorem c3_exit_discipline_witness :
    processSymbolAction
      (some ⟨"p1", "b1", "AAPL", 10, 100, 100, none, none, 0, 0, true, "RSI", 0, none⟩)
      { results := [("RSI", some Signal.hold), ("SMA", some Signal.sell)],
        latestPrice := 10, riskAllowsBuy := true } = SymbolAction.hold
  ∧ processSymbolAction
      (some ⟨"p1", "b1", "AAPL", 10, 100, 100, none, none, 0, 0, true, "RSI", 0, none⟩)
      { results := [("RSI", some Signal.sell), ("SMA", some Signal.sell)],
        latestPrice := 10, riskAllowsBuy := true } =
      SymbolAction.sellOrder ("RSI" ++ " sell signal") := by
  constructor
  · exact c3_exit_discipline.2.1 _ _ (by decide) (by decide)
  · exact (c3_exit_discipline.1 _ _ (by decide) (by decide)).mpr (by decide)

/-- C9 (amended): for an open position with a fetched positive price, the
take-profit check runs second and overwrites the reason, so whenever the
take-profit condition holds the reported reason is "Take-profit triggered"
(even if the stop-loss condition also holds); the stop-loss reason is
reported exactly when the stop-loss condition holds and the take-profit
condition does not; when neither holds the position's current price is
updated and unrealized P&L is recomputed as (price − entry) × quantity
rounded to 2 decimals. -/
theorem c9_sl_tp_monitoring :
    ∀ (pos : Position) (price : ℚ), 0 < price →
      ((levelSet pos.takeProfitPrice = true ∧ pos.takeProfitPrice.getD 0 ≤ price) →
        slTpAction pos price = SlTpAction.sell "Take-profit triggered")
    ∧ ((levelSet pos.stopLossPrice = true ∧ price ≤ pos.stopLossPrice.getD 0
        ∧ ¬(levelSet pos.takeProfitPrice = true ∧ pos.takeProfitPrice.getD 0 ≤ price)) →
        slTpAction pos price = SlTpAction.sell "Stop-loss triggered")
    ∧ ((¬(levelSet pos.stopLossPrice = true ∧ price ≤ pos.stopLossPrice.getD 0)
        ∧ ¬(levelSet pos.takeProfitPrice = true ∧ pos.takeProfitPrice.getD 0 ≤ price)) →
        slTpAction pos price =
          SlTpAction.updatePrice price (round2 ((price - pos.entryPrice) * pos.quantity))) := by
  intro pos price _hp
  refine ⟨?_, ?_, ?_⟩
  · intro h
    simp only [slTpAction]
    split_ifs with h1 h2 <;> first
      | rfl
      | exact absurd ⟨h.1, h.2⟩ h1
  · intro h
    simp only [slTpAction]
    split_ifs with h1 h2 <;> first
      | rfl
      | exact absurd h1 h.2.2
      | exact absurd ⟨h.1, h.2.1⟩ h2
  · intro h
    simp only [slTpAction]
    split_ifs with h1 h2 <;> first
      | rfl
      | exact absurd h1 h.2
      | exact absurd h2 h.1

/-- Witness for C9: spec scenario 3 — entry 100, stop-loss 98, no
take-profit, price 97: the position is sold with the stop-loss reason. -/
theorem c9_sl_tp_monitoring_witness :
    slTpAction ⟨"p1", "b1", "AAPL", 1, 100, 100, some 98, none, 0, 0, true, "RSI", 0, none⟩ 97 =
      SlTpAction.sell "Stop-loss triggered" :=
  (c9_sl_tp_monitoring
    ⟨"p1", "b1", "AAPL", 1, 100, 100, some 98, none, 0, 0, true, "RSI", 0, none⟩ 97
    (by decide)).2.1 (by decide)

/-- Counterexample for C9 as stated: stop-loss level 100 above take-profit
level 90, price 95 — the stop-loss condition (level set and price ≤ 100)
holds, yet the reported reason is the take-profit one, not the stop-loss
one. -/
theorem c9_sl_tp_monitoring_counterexample :
    (levelSet (some (100 : ℚ)) = true ∧ (95 : ℚ) ≤ 100)
  ∧ slTpAction ⟨"p1", "b1", "AAPL", 1, 100, 100, some 100, some 90, 0, 0, true, "RSI", 0, none⟩
      95 = SlTpAction.sell "Take-profit triggered"
  ∧ SlTpAction.sell "Take-profit triggered" ≠ SlTpAction.sell "Stop-loss triggered" := by
  decide

/-- C5 (amended): in the sell-execution phase after fill polling, a
terminal non-fill (canceled/cancelled/expired/rejected) leaves the Position
open and unchanged and records no sell Trade; any other polled status —
including a still-transient status after the polling timeout — is treated
as a fill: using the last-observed price when the broker's fill price is
missing, the Position ends with is_open = false, closed_at set,
unrealized_pnl = 0, current_price = fill price, and realized_pnl =
(fill_price − entry_price) × quantity rounded to 2 decimals, with the same
value recorded as the sell Trade's profit_loss. -/
theorem c5_sell_execution_postconditions :
    ∀ (pos : Position) (currentPrice : ℚ) (os : OrderStatus)
      (botId symbol tradeId orderId coid reason : String) (now : ℕ),
      (isTerminalNonFill os.status = true →
        executeSellOutcome pos currentPrice os botId symbol tradeId orderId coid reason now
          = (pos, none))
    ∧ (isTerminalNonFill os.status = false →
        ((executeSellOutcome pos currentPrice os botId symbol tradeId orderId coid
            reason now).1.isOpen = false
        ∧ (executeSellOutcome pos currentPrice os botId symbol tradeId orderId coid
            reason now).1.closedAt = some now
        ∧ (executeSellOutcome pos currentPrice os botId symbol tradeId orderId coid
            reason now).1.unrealizedPnl = 0
        ∧ (executeSellOutcome pos currentPrice os botId symbol tradeId orderId coid
            reason now).1.currentPrice = sellFillPrice os currentPrice
        ∧ (executeSellOutcome pos currentPrice os botId symbol tradeId orderId coid
            reason now).1.realizedPnl =
            round2 ((sellFillPrice os currentPrice - pos.entryPrice) * pos.quantity)
        ∧ ((executeSellOutcome pos currentPrice os botId symbol tradeId orderId coid
            reason now).2.map Trade.profitLoss) =
            some (some (round2 ((sellFillPrice os currentPrice - pos.entryPrice) * pos.quantity)))
        ∧ ((executeSellOutcome pos currentPrice os botId symbol tradeId orderId coid
            reason now).2.map Trade.price) = some (sellFillPrice os currentPrice)
        ∧ ((executeSellOutcome pos currentPrice os botId symbol tradeId orderId coid
            reason now).2.map Trade.side) = some "sell"))
    ∧ (os.filled_avg_price = none → sellFillPrice os currentPrice = currentPrice) := by
  intro pos currentPrice os botId symbol tradeId orderId coid reason now
  refine ⟨?_, ?_, ?_⟩
  · intro h
    simp [executeSellOutcome, h]
  · intro h
    simp [executeSellOutcome, h]
  · intro h
    simp [sellFillPrice, h]

/-- Witness for C5: a filled sell at 110 against entry 100 × 3 shares
closes the position with realized P&L 30, recorded on the trade. -/
theorem c5_sell_execution_postconditions_witness :
    (executeSellOutcome ⟨"p1", "b1", "AAPL", 3, 100, 100, none, none, 0, 0, true, "RSI", 0, none⟩
        105 { status := "filled", filled_avg_price := some 110 }
        "b1" "AAPL" "t1" "o1" "c1" "RSI sell signal" 7).1.isOpen = false
  ∧ ((executeSellOutcome ⟨"p1", "b1", "AAPL", 3, 100, 100, none, none, 0, 0, true, "RSI", 0, none⟩
        105 { status := "filled", filled_avg_price := some 110 }
        "b1" "AAPL" "t1" "o1" "c1" "RSI sell signal" 7).2.map Trade.profitLoss) =
      some (some (round2 ((sellFillPrice { status := "filled", filled_avg_price := some 110 } 105
        - 100) * 3))) := by
  have h := c5_sell_execution_postconditions
    ⟨"p1", "b1", "AAPL", 3, 100, 100, none, none, 0, 0, true, "RSI", 0, none⟩
    105 { status := "filled", filled_avg_price := some 110 }
    "b1" "AAPL" "t1" "o1" "c1" "RSI sell signal" 7
  exact ⟨(h.2.1 (by decide)).1, (h.2.1 (by decide)).2.2.2.2.2.1⟩

/-- Counterexample for C5 as stated: after the polling timeout the order
status can still be transient ("new" is neither terminal nor "filled"),
yet the sell path mutates the Position anyway, closing it with the
fallback price. -/
theorem c5_sell_execution_postconditions_counterexample :
    isTerminalNonFill "new" = false
  ∧ "new" ≠ "filled"
  ∧ (executeSellOutcome ⟨"p2", "b1", "AAPL", 2, 100, 100, none, none, 0, 0, true, "RSI", 0, none⟩
        95 { status := "new" } "b1" "AAPL" "t1" "o1" "c1" "r" 7).1.isOpen = false
  ∧ (⟨"p2", "b1", "AAPL", 2, 100, 100, none, none, 0, 0, true, "RSI", 0, none⟩
        : Position).isOpen = true := by
  refine ⟨by decide, by decide, ?_, rfl⟩
  simp [executeSellOutcome, isTerminalNonFill]

/-- With an open position, `_process_symbol` takes the exit path and can
never emit a BUY, whatever the indicators, price, or risk verdict say. -/
lemma processSymbolAction_some_ne_buy (pos : Position) (env : SymbolEnv) (j : String) :
    processSymbolAction (some pos) env ≠ SymbolAction.buyOrder j := by
  simp only [processSymbolAction]
  split_ifs <;> simp

lemma getOpenPosition_after_pending (st : Store) (botId symbol : String) (qty : ℤ)
    (currentPrice : ℚ) (entryIndicator : String) (cfg : RiskConfig)
    (tradeId positionId orderId coid : String) (now : ℕ)
    (h : getOpenPosition st botId symbol = none) :
    getOpenPosition (executeBuyPending st botId symbol qty currentPrice entryIndicator cfg
        tradeId positionId orderId coid now) botId symbol =
      some (pendingBuyPosition botId symbol qty currentPrice entryIndicator cfg positionId now) := by
  unfold getOpenPosition executeBuyPending at *
  rw [List.find?_append, h]
  simp [List.find?, pendingBuyPosition]

/-- C1: for every BUY order submitted, the same transaction that follows
the submission — and precedes fill polling — commits a Trade with status
"new" and an open Position whose preliminary entry price is the last
observed price and whose entry indicator is set; since a per-symbol pass
first looks up the open Position and takes the exit path when one exists,
a later pass for the same (bot, symbol) can never emit a second BUY while
that Position is open. -/
theorem c1_anti_duplication :
    ∀ (st : Store) (botId symbol : String) (env : SymbolEnv) (i : String)
      (qty : ℤ) (cfg : RiskConfig) (tradeId positionId orderId coid : String) (now : ℕ),
      processSymbolAction (getOpenPosition st botId symbol) env = SymbolAction.buyOrder i →
      0 < qty →
      (getOpenPosition (executeBuyPending st botId symbol qty env.latestPrice i cfg
          tradeId positionId orderId coid now) botId symbol =
        some (pendingBuyPosition botId symbol qty env.latestPrice i cfg positionId now))
      ∧ (pendingBuyPosition botId symbol qty env.latestPrice i cfg positionId now).isOpen = true
      ∧ (pendingBuyPosition botId symbol qty env.latestPrice i cfg positionId now).entryPrice
          = env.latestPrice
      ∧ (pendingBuyPosition botId symbol qty env.latestPrice i cfg
          positionId now).entryIndicator = i
      ∧ (pendingBuyTrade botId symbol qty env.latestPrice i tradeId orderId coid now
          ∈ (executeBuyPending st botId symbol qty env.latestPrice i cfg
              tradeId positionId orderId coid now).trades)
      ∧ (pendingBuyTrade botId symbol qty env.latestPrice i tradeId orderId coid now).status
          = "new"
      ∧ (pendingBuyTrade botId symbol qty env.latestPrice i tradeId orderId coid now).side
          = "buy"
      ∧ (∀ (env2 : SymbolEnv) (j : String),
          processSymbolAction (getOpenPosition (executeBuyPending st botId symbol qty
              env.latestPrice i cfg tradeId positionId orderId coid now) botId symbol) env2
            ≠ SymbolAction.buyOrder j) := by
  intro st botId symbol env i qty cfg tradeId positionId orderId coid now hbuy _hqty
  have hnone : getOpenPosition st botId symbol = none := by
    cases hop : getOpenPosition st botId symbol with
    | none => rfl
    | some p =>
      rw [hop] at hbuy
      exact absurd hbuy (processSymbolAction_some_ne_buy p env i)
  have hfound := getOpenPosition_after_pending st botId symbol qty env.latestPrice i cfg
    tradeId positionId orderId coid now hnone
  refine ⟨hfound, rfl, rfl, rfl, ?_, rfl, rfl, ?_⟩
  · simp [executeBuyPending]
  · intro env2 j
    rw [hfound]
    exact processSymbolAction_some_ne_buy _ env2 j

/-- Witness for C1: on an empty store, a BUY proposed by RSI commits the
pending records, and the next pass for the same bot and symbol — with the
very same indicator still voting BUY — no longer emits a BUY. -/
theorem c1_anti_duplication_witness :
    getOpenPosition (executeBuyPending ⟨[], []⟩ "b1" "AAPL" 2 50 "RSI" {}
        "t1" "p1" "o1" "c1" 0) "b1" "AAPL" =
      some (pendingBuyPosition "b1" "AAPL" 2 50 "RSI" {} "p1" 0)
  ∧ processSymbolAction
      (getOpenPosition (executeBuyPending ⟨[], []⟩ "b1" "AAPL" 2 50 "RSI" {}
        "t1" "p1" "o1" "c1" 0) "b1" "AAPL")
      { results := [("RSI", some Signal.buy)], latestPrice := 50, riskAllowsBuy := true }
      ≠ SymbolAction.buyOrder "RSI" := by
  have h := c1_anti_duplication ⟨[], []⟩ "b1" "AAPL"
    { results := [("RSI", some Signal.buy)], latestPrice := 50, riskAllowsBuy := true }
    "RSI" 2 {} "t1" "p1" "o1" "c1" 0 (by decide) (by decide)
  exact ⟨h.1, h.2.2.2.2.2.2.2
    { results := [("RSI", some Signal.buy)], latestPrice := 50, riskAllowsBuy := true } "RSI"⟩

/-- The invariant C7 asserts of every reachable runner state: once the
consecutive-error counter has reached the cap, the bot is persisted as
errored and inactive, the status change was emitted, and the loop has
exited. -/
def errorCapInvariant (s : RunnerState) : Prop :=
  maxErrorCount ≤ s.consecutiveErrors →
    s.botStatus = "error" ∧ s.botIsActive = false ∧ s.isRunning = false ∧
    s.exited = true ∧ s.emittedStatusChanged = true

lemma cycleStep_preserves_invariant (s : RunnerState) (o : CycleOutcome)
    (h : errorCapInvariant s) : errorCapInvariant (cycleStep s o) := by
  unfold cycleStep
  split_ifs with hfrozen
  · exact h
  · cases o with
    | success =>
      intro hc
      simp [maxErrorCount] at hc
    | failure =>
      dsimp only
      split_ifs with hcap
      · intro _
        exact ⟨rfl, rfl, rfl, rfl, rfl⟩
      · intro hc
        exact absurd hc hcap

/-- C7: every exception escaping a cycle increments the consecutive-error
counter while the loop continues below the cap, any successful cycle
resets the counter to 0, reaching the cap of 5 persists status "error" and
is_active = false, emits the status change and exits the loop — and in
every state reachable from a freshly started runner, a counter at or above
5 implies the bot is persisted as errored, inactive, and the loop exited. -/
theorem c7_consecutive_error_cap :
    (∀ s : RunnerState, s.exited = false → s.isRunning = true →
      cycleStep s CycleOutcome.success = { s with consecutiveErrors := 0 })
  ∧ (∀ s : RunnerState, s.exited = false → s.isRunning = true →
      s.consecutiveErrors + 1 < maxErrorCount →
      cycleStep s CycleOutcome.failure = { s with consecutiveErrors := s.consecutiveErrors + 1 })
  ∧ (∀ s : RunnerState, s.exited = false → s.isRunning = true →
      maxErrorCount ≤ s.consecutiveErrors + 1 →
      cycleStep s CycleOutcome.failure =
        { s with
          consecutiveErrors := s.consecutiveErrors + 1
          isRunning := false
          exited := true
          botStatus := "error"
          botIsActive := false
          emittedStatusChanged := true })
  ∧ (∀ outcomes : List CycleOutcome,
      errorCapInvariant (runCycles initialRunnerState outcomes)) := by
  refine ⟨?_, ?_, ?_, ?_⟩
  · intro s h1 h2
    unfold cycleStep
    rw [if_neg (by simp [h1, h2])]
  · intro s h1 h2 h3
    unfold cycleStep
    rw [if_neg (by simp [h1, h2]), if_neg (by omega)]
  · intro s h1 h2 h3
    unfold cycleStep
    rw [if_neg (by simp [h1, h2]), if_pos (by omega)]
  · have hstep : ∀ (os : List CycleOutcome) (s : RunnerState),
        errorCapInvariant s → errorCapInvariant (runCycles s os) := by
      intro os
      induction os with
      | nil => intro s hs; exact hs
      | cons o os ih =>
        intro s hs
        exact ih _ (cycleStep_preserves_invariant s o hs)
    intro outcomes
    refine hstep outcomes initialRunnerState ?_
    intro hc
    simp [initialRunnerState, maxErrorCount] at hc

/-- Witness for C7: five consecutive failing cycles from a fresh runner
leave the bot persisted as errored, inactive, and the loop exited. -/
theorem c7_consecutive_error_cap_witness :
    (runCycles initialRunnerState (List.replicate 5 CycleOutcome.failure)).botStatus = "error"
  ∧ (runCycles initialRunnerState (List.replicate 5 CycleOutcome.failure)).botIsActive = false
  ∧ (runCycles initialRunnerState (List.replicate 5 CycleOutcome.failure)).exited = true := by
  have h := c7_consecutive_error_cap.2.2.2 (List.replicate 5 CycleOutcome.failure) (by decide)
  exact ⟨h.1, h.2.1, h.2.2.2.1⟩

/-- C8 (amended): `TradingEngine.start` is idempotent (a second call while
running does nothing) and performs, in order: set the running flag, refresh
market status once synchronously, spawn the Market Monitor, load and
register every bot persisted as running, run one startup reconciliation,
and then spawn the Reconciler periodic loop; each bot's registration is
individually isolated, so one failing registration leaves the other bots
registered. -/
theorem c8_engine_start :
    engineStartSteps true = []
  ∧ engineStartSteps false =
      [ StartStep.setRunningFlag, StartStep.refreshMarketStatus, StartStep.spawnMarketMonitor,
        StartStep.loadRunningBots, StartStep.startupReconciliation,
        StartStep.spawnReconcilerLoop ]
  ∧ (∀ (pre post : List (String × Bool)) (b : String),
      loadRunningBots (pre ++ (b, false) :: post) = loadRunningBots (pre ++ post))
  ∧ (∀ (bots : List (String × Bool)) (bid : String),
      bid ∈ loadRunningBots bots ↔ ∃ pr ∈ bots, pr.1 = bid ∧ pr.2 = true) := by
  refine ⟨rfl, rfl, ?_, ?_⟩
  · intro pre post b
    simp [loadRunningBots]
  · intro bots bid
    simp only [loadRunningBots, List.mem_map, List.mem_filter, decide_eq_true_eq]
    constructor
    · rintro ⟨a, ⟨hmem, htrue⟩, heq⟩
      exact ⟨a, hmem, heq, htrue⟩
    · rintro ⟨a, hmem, heq, htrue⟩
      exact ⟨a, ⟨hmem, htrue⟩, heq⟩

/-- Counterexample for C8 as stated: in the source's `start()`, the running
bots are loaded and registered BEFORE the startup reconciliation runs, and
the Reconciler periodic loop is only spawned AFTER that reconciliation —
contradicting the claimed ordering (monitor and reconciler loop first, then
reconciliation to completion, only then bot loading). -/
theorem c8_engine_start_counterexample :
    List.indexOf StartStep.loadRunningBots (engineStartSteps false) <
      List.indexOf StartStep.startupReconciliation (engineStartSteps false)
  ∧ List.indexOf StartStep.startupReconciliation (engineStartSteps false) <
      List.indexOf StartStep.spawnReconcilerLoop (engineStartSteps false) := by
  decide

lemma terminal_cases (s : String) (h : isTerminalNonFill s = true) :
    s = "canceled" ∨ s = "cancelled" ∨ s = "expired" ∨ s = "rejected" := by
  simpa [isTerminalNonFill] using h

lemma transient_cases (s : String) (h : isTransientStatus s = true) :
    s = "new" ∨ s = "partially_filled" ∨ s = "accepted" ∨ s = "pending_new" := by
  simpa [isTransientStatus] using h

lemma terminal_ne_filled (s : String) (h : isTerminalNonFill s = true) : ¬ (s = "filled") := by
  rcases terminal_cases s h with h1 | h1 | h1 | h1 <;> rw [h1] <;> decide

lemma transient_ne_filled (s : String) (h : isTransientStatus s = true) : ¬ (s = "filled") := by
  rcases transient_cases s h with h1 | h1 | h1 | h1 <;> rw [h1] <;> decide

lemma transient_not_terminal (s : String) (h : isTransientStatus s = true) :
    isTerminalNonFill s = false := by
  rcases transient_cases s h with h1 | h1 | h1 | h1 <;> rw [h1] <;> decide

lemma closeMatchingOpenPosition_spec (now : ℕ) (botId symbol : String)
    (ps1 : List Position) (pos : Position) (ps2 : List Position)
    (h1 : ∀ r ∈ ps1, ¬(r.botId = botId ∧ r.symbol = symbol ∧ r.isOpen = true))
    (h2 : pos.botId = botId ∧ pos.symbol = symbol ∧ pos.isOpen = true) :
    closeMatchingOpenPosition now botId symbol (ps1 ++ pos :: ps2) =
      ps1 ++ closePosition now pos :: ps2 := by
  induction ps1 with
  | nil => simp [closeMatchingOpenPosition, h2]
  | cons a as ih =>
    have ha := h1 a (by simp)
    simp only [List.cons_append, closeMatchingOpenPosition, if_neg ha]
    exact congrArg (List.cons a) (ih (fun r hr => h1 r (by simp [hr])))

lemma refillMatchingOpenPosition_spec (fillPrice : ℚ) (fillQty : ℤ) (botId symbol : String)
    (ps1 : List Position) (pos : Position) (ps2 : List Position)
    (h1 : ∀ r ∈ ps1, ¬(r.botId = botId ∧ r.symbol = symbol ∧ r.isOpen = true))
    (h2 : pos.botId = botId ∧ pos.symbol = symbol ∧ pos.isOpen = true) :
    refillMatchingOpenPosition fillPrice fillQty botId symbol (ps1 ++ pos :: ps2) =
      ps1 ++ { pos with entryPrice := fillPrice, quantity := fillQty } :: ps2 := by
  induction ps1 with
  | nil => simp [refillMatchingOpenPosition, h2]
  | cons a as ih =>
    have ha := h1 a (by simp)
    simp only [List.cons_append, refillMatchingOpenPosition, if_neg ha]
    exact congrArg (List.cons a) (ih (fun r hr => h1 r (by simp [hr])))

/-- C6: for every pending local Trade (status "new"/"partially_filled")
the Reconciler examines, a broker "filled" overwrites the Trade's price
and quantity and the first matching open Position's entry price and
quantity with the fill data; a broker terminal status sets that status on
the Trade and closes the matching open Position; a still-transient broker
status older than 5 minutes cancels the broker order, marks the Trade
"canceled", and closes the Position; a fresh transient leaves everything
untouched. -/
theorem c6_pending_trade_resolution :
    ∀ (trade : Trade) (positions : List Position) (order : OrderStatus) (now : ℕ),
      trade.status = "new" ∨ trade.status = "partially_filled" →
      (∀ (p : ℚ) (q : ℤ), order.status = "filled" → order.filled_avg_price = some p → p ≠ 0 →
        order.filled_qty = some q → q ≠ 0 →
        resolvePendingTradeStep trade positions order now =
          ({ trade with status := "filled", price := p, quantity := q },
           refillMatchingOpenPosition p q trade.botId trade.symbol positions,
           false))
    ∧ (isTerminalNonFill order.status = true →
        resolvePendingTradeStep trade positions order now =
          ({ trade with status := order.status },
           closeMatchingOpenPosition now trade.botId trade.symbol positions,
           false))
    ∧ (isTransientStatus order.status = true → staleOrderThreshold < now - trade.timestamp →
        resolvePendingTradeStep trade positions order now =
          ({ trade with status := "canceled" },
           closeMatchingOpenPosition now trade.botId trade.symbol positions,
           true))
    ∧ (isTransientStatus order.status = true → now - trade.timestamp ≤ staleOrderThreshold →
        resolvePendingTradeStep trade positions order now = (trade, positions, false))
    ∧ (∀ (ps1 : List Position) (pos : Position) (ps2 : List Position),
        positions = ps1 ++ pos :: ps2 →
        (∀ r ∈ ps1, ¬(r.botId = trade.botId ∧ r.symbol = trade.symbol ∧ r.isOpen = true)) →
        (pos.botId = trade.botId ∧ pos.symbol = trade.symbol ∧ pos.isOpen = true) →
        closeMatchingOpenPosition now trade.botId trade.symbol positions =
          ps1 ++ closePosition now pos :: ps2
        ∧ (closePosition now pos).isOpen = false
        ∧ (closePosition now pos).closedAt = some now
        ∧ (∀ (p : ℚ) (q : ℤ),
            refillMatchingOpenPosition p q trade.botId trade.symbol positions =
              ps1 ++ { pos with entryPrice := p, quantity := q } :: ps2)) := by
  intro trade positions order now _hpending
  refine ⟨?_, ?_, ?_, ?_, ?_⟩
  · intro p q hstat hp hpne hq hqne
    simp [resolvePendingTradeStep, hstat, hp, hpne, hq, hqne]
  · intro hterm
    have hne := terminal_ne_filled order.status hterm
    simp [resolvePendingTradeStep, hne, hterm]
  · intro htrans hage
    have hne := transient_ne_filled order.status htrans
    have hnt := transient_not_terminal order.status htrans
    simp [resolvePendingTradeStep, hne, hnt, htrans, hage]
  · intro htrans hage
    have hne := transient_ne_filled order.status htrans
    have hnt := transient_not_terminal order.status htrans
    simp [resolvePendingTradeStep, hne, hnt, htrans, not_lt.mpr hage]
  · intro ps1 pos ps2 hdec hnomatch hmatch
    subst hdec
    exact ⟨closeMatchingOpenPosition_spec now trade.botId trade.symbol ps1 pos ps2
        hnomatch hmatch,
      rfl, rfl,
      fun p q => refillMatchingOpenPosition_spec p q trade.botId trade.symbol ps1 pos ps2
        hnomatch hmatch⟩

/-- Witness for C6: spec scenario 4 — a Trade pending for 10 minutes whose
broker order is reported canceled: the Trade becomes canceled and the
matching open Position is closed. -/
theorem c6_pending_trade_resolution_witness :
    resolvePendingTradeStep
      ⟨"t1", "b1", "AAPL", "buy", 5, 100, 0, "o1", "c1", "new", none, ""⟩
      [⟨"p1", "b1", "AAPL", 5, 100, 100, none, none, 0, 0, true, "RSI", 0, none⟩]
      { status := "canceled" } 600 =
      (⟨"t1", "b1", "AAPL", "buy", 5, 100, 0, "o1", "c1", "canceled", none, ""⟩,
       [closePosition 600 ⟨"p1", "b1", "AAPL", 5, 100, 100, none, none, 0, 0, true, "RSI", 0, none⟩],
       false)
  ∧ (closePosition 600
      ⟨"p1", "b1", "AAPL", 5, 100, 100, none, none, 0, 0, true, "RSI", 0, none⟩).isOpen = false := by
  have h := c6_pending_trade_resolution
    ⟨"t1", "b1", "AAPL", "buy", 5, 100, 0, "o1", "c1", "new", none, ""⟩
    [⟨"p1", "b1", "AAPL", 5, 100, 100, none, none, 0, 0, true, "RSI", 0, none⟩]
    { status := "canceled" } 600 (Or.inl rfl)
  have hterm := h.2.1 (by decide)
  have hclose := h.2.2.2.2 []
    ⟨"p1", "b1", "AAPL", 5, 100, 100, none, none, 0, 0, true, "RSI", 0, none⟩ []
    rfl (by simp) (by decide)
  refine ⟨?_, hclose.2.1⟩
  rw [hterm]
  rw [show closeMatchingOpenPosition 600 "b1" "AAPL"
      [⟨"p1", "b1", "AAPL", 5, 100, 100, none, none, 0, 0, true, "RSI", 0, none⟩] =
      [closePosition 600 ⟨"p1", "b1", "AAPL", 5, 100, 100, none, none, 0, 0, true, "RSI", 0, none⟩]
    from hclose.1]

lemma sumQty_cons (p : Position) (l : List Position) :
    sumQty (p :: l) = p.quantity + sumQty l := by
  simp [sumQty]

lemma sumOpenQty_cons (q : Position) (l : List Position) :
    sumOpenQty (q :: l) = (if q.isOpen = true then q.quantity else 0) + sumOpenQty l := by
  by_cases h : q.isOpen = true
  · simp [sumOpenQty, h]
  · simp [sumOpenQty, h]

lemma sumOpenQty_eq_sumQty_of_open (l : List Position) (h : ∀ p ∈ l, p.isOpen = true) :
    sumOpenQty l = sumQty l := by
  induction l with
  | nil => rfl
  | cons p ps ih =>
    rw [sumOpenQty_cons, sumQty_cons, if_pos (h p (by simp)),
      ih (fun q hq => h q (by simp [hq]))]

lemma sumQty_nonneg (l : List Position) (h : ∀ p ∈ l, 0 ≤ p.quantity) : 0 ≤ sumQty l := by
  induction l with
  | nil => simp [sumQty]
  | cons p ps ih =>
    rw [sumQty_cons]
    have h1 := h p (by simp)
    have h2 := ih (fun q hq => h q (by simp [hq]))
    omega

lemma updateLivePrice_isOpen (pm : String → Option ℚ) (p : Position) :
    (updateLivePrice pm p).isOpen = p.isOpen := by
  unfold updateLivePrice
  split_ifs with h
  · cases hpm : pm p.symbol with
    | none => rfl
    | some v => rfl
  · rfl

lemma updateLivePrice_quantity (pm : String → Option ℚ) (p : Position) :
    (updateLivePrice pm p).quantity = p.quantity := by
  unfold updateLivePrice
  split_ifs with h
  · cases hpm : pm p.symbol with
    | none => rfl
    | some v => rfl
  · rfl

lemma sumOpenQty_updateLivePrices (pm : String → Option ℚ) (ps : List Position) :
    sumOpenQty (updateLivePrices pm ps) = sumOpenQty ps := by
  induction ps with
  | nil => rfl
  | cons p ps ih =>
    show sumOpenQty (updateLivePrice pm p :: updateLivePrices pm ps) = _
    rw [sumOpenQty_cons, sumOpenQty_cons, updateLivePrice_isOpen, updateLivePrice_quantity, ih]

lemma sumOpenQty_autoClose_le (now : ℕ) :
    ∀ (l : List Position) (r : ℤ), (∀ p ∈ l, p.isOpen = true) → (∀ p ∈ l, 0 ≤ p.quantity) →
      sumOpenQty (autoCloseStalePositions now r l) ≤ max (sumQty l - r) 0 := by
  intro l
  induction l with
  | nil =>
    intro r _ _
    simp only [autoCloseStalePositions]
    have h0 : sumOpenQty ([] : List Position) = 0 := rfl
    rw [h0]
    exact le_max_right _ _
  | cons p ps ih =>
    intro r hopen hqty
    by_cases hr : r ≤ 0
    · simp only [autoCloseStalePositions, if_pos hr]
      rw [sumOpenQty_eq_sumQty_of_open _ hopen]
      have h0 : 0 ≤ sumQty (p :: ps) := sumQty_nonneg _ hqty
      have h1 : sumQty (p :: ps) ≤ sumQty (p :: ps) - r := by omega
      exact le_trans h1 (le_max_left _ _)
    · simp only [autoCloseStalePositions, if_neg hr]
      rw [sumOpenQty_cons, if_neg (by simp [closePosition])]
      have hrec := ih (r - p.quantity) (fun q hq => hopen q (by simp [hq]))
        (fun q hq => hqty q (by simp [hq]))
      have heq : sumQty ps - (r - p.quantity) = sumQty (p :: ps) - r := by
        rw [sumQty_cons]; ring
      rw [heq] at hrec
      simpa using hrec

lemma autoClose_take_drop (now : ℕ) :
    ∀ (l : List Position) (r : ℤ), ∃ k, k ≤ l.length ∧
      autoCloseStalePositions now r l = (l.take k).map (closePosition now) ++ l.drop k ∧
      (r ≤ sumQty (l.take k) ∨ k = l.length) ∧
      (∀ j < k, sumQty (l.take j) < r) := by
  intro l
  induction l with
  | nil =>
    intro r
    exact ⟨0, le_refl 0, by simp [autoCloseStalePositions], Or.inr rfl, by omega⟩
  | cons p ps ih =>
    intro r
    by_cases hr : r ≤ 0
    · refine ⟨0, by simp, ?_, Or.inl ?_, ?_⟩
      · simp only [autoCloseStalePositions, if_pos hr]
        simp
      · simpa [sumQty] using hr
      · intro j hj
        omega
    · push_neg at hr
      obtain ⟨k, hk, heq, hsum, hmin⟩ := ih (r - p.quantity)
      refine ⟨k + 1, by simpa using hk, ?_, ?_, ?_⟩
      · simp only [autoCloseStalePositions, if_neg (by omega : ¬ r ≤ 0)]
        rw [heq]
        simp [List.take_succ_cons, List.drop_succ_cons]
      · rcases hsum with h | h
        · left
          rw [List.take_succ_cons, sumQty_cons]
          omega
        · right
          simp [h]
      · intro j hj
        cases j with
        | zero =>
          simpa [sumQty] using hr
        | succ j2 =>
          have hj2 := hmin j2 (by omega)
          rw [List.take_succ_cons, sumQty_cons]
          omega

/-- C4: in a position-drift pass for one (user, symbol) — acting on the
user's open positions in `opened_at` ascending order — local excess over
the broker quantity is repaired by closing the oldest open positions first
until the excess is absorbed, broker excess is only recorded as a
discrepancy and never touches the rows, and after the pass (including the
live-price refresh, which changes neither quantity nor open state) the sum
of open local quantities is at most the broker quantity, so any non-zero
difference is broker-excess. -/
theorem c4_reconciler_drift_repair :
    ∀ (now : ℕ) (symbol : String) (localOpen : List Position) (brokerQty : ℤ)
      (priceMap : String → Option ℚ),
      (∀ p ∈ localOpen, p.isOpen = true) →
      (∀ p ∈ localOpen, 0 ≤ p.quantity) →
      0 ≤ brokerQty →
      (sumOpenQty (updateLivePrices priceMap
          (reconcileSymbol now symbol localOpen brokerQty).1) ≤ brokerQty)
    ∧ (brokerQty > sumQty localOpen →
        (reconcileSymbol now symbol localOpen brokerQty).1 = localOpen
        ∧ (reconcileSymbol now symbol localOpen brokerQty).2 =
            some { kind := "excess_in_alpaca", symbol := symbol, alpacaQty := brokerQty,
                   dbQty := sumQty localOpen, diff := brokerQty - sumQty localOpen })
    ∧ (sumQty localOpen > brokerQty →
        ∃ k, k ≤ localOpen.length ∧
          (reconcileSymbol now symbol localOpen brokerQty).1 =
            (localOpen.take k).map (closePosition now) ++ localOpen.drop k
          ∧ (sumQty localOpen - brokerQty ≤ sumQty (localOpen.take k) ∨ k = localOpen.length)
          ∧ (∀ j < k, sumQty (localOpen.take j) < sumQty localOpen - brokerQty)) := by
  intro now symbol localOpen brokerQty priceMap hopen hqty hbroker
  refine ⟨?_, ?_, ?_⟩
  · rw [sumOpenQty_updateLivePrices]
    simp only [reconcileSymbol]
    split_ifs with h1 h2
    · have h3 : sumOpenQty localOpen ≤ brokerQty := by
        rw [sumOpenQty_eq_sumQty_of_open _ hopen]
        omega
      exact h3
    · have hb := sumOpenQty_autoClose_le now localOpen (sumQty localOpen - brokerQty) hopen hqty
      have heq : sumQty localOpen - (sumQty localOpen - brokerQty) = brokerQty := by ring
      rw [heq] at hb
      exact le_trans hb (max_le le_rfl hbroker)
    · have h3 : sumOpenQty localOpen ≤ brokerQty := by
        rw [sumOpenQty_eq_sumQty_of_open _ hopen]
        omega
      exact h3
  · intro hgt
    simp only [reconcileSymbol]
    rw [if_pos hgt]
    exact ⟨rfl, rfl⟩
  · intro hgt
    simp only [reconcileSymbol]
    rw [if_neg (by omega), if_pos hgt]
    exact autoClose_take_drop now localOpen (sumQty localOpen - brokerQty)

/-- Witness for C4: spec scenario 5 — open positions of 10 and 5 shares
(oldest first) against a broker quantity of 8: after the pass the open
local sum is within the broker quantity. -/
theorem c4_reconciler_drift_repair_witness :
    sumOpenQty (updateLivePrices (fun _ => none)
      (reconcileSymbol 9 "SYM"
        [⟨"p1", "b1", "SYM", 10, 100, 100, none, none, 0, 0, true, "RSI", 1, none⟩,
         ⟨"p2", "b1", "SYM", 5, 100, 100, none, none, 0, 0, true, "RSI", 2, none⟩] 8).1) ≤ 8 :=
  (c4_reconciler_drift_repair 9 "SYM"
    [⟨"p1", "b1", "SYM", 10, 100, 100, none, none, 0, 0, true, "RSI", 1, none⟩,
     ⟨"p2", "b1", "SYM", 5, 100, 100, none, none, 0, 0, true, "RSI", 2, none⟩] 8
    (fun _ => none) (by decide) (by decide) (by decide)).1

/-- Witness for C10: a legacy position (empty `entry_indicator`) and a
single configured indicator voting SELL — the fallback still holds. -/
theorem c10_majority_vote_threshold_witness :
    processSymbolAction
      (some { id := "p1", botId := "b1", symbol := "AAPL", quantity := 10,
              entryPrice := 100, currentPrice := 100, isOpen := true, entryIndicator := "" })
      { results := [("SMA", some Signal.sell)], latestPrice := 10, riskAllowsBuy := true } =
      SymbolAction.hold :=
  c10_majority_vote_threshold.2.2.2.2.2
    { id := "p1", botId := "b1", symbol := "AAPL", quantity := 10,
      entryPrice := 100, currentPrice := 100, isOpen := true, entryIndicator := "" }
    { results := [("SMA", some Signal.sell)], latestPrice := 10, riskAllowsBuy := true }
    rfl (by decide)

end TradingBot
